import Mathlib

/-!
Verification of the batch-download orchestrator in `src/main.py` of the
spotify-downloader repository.

The Python source is shallowly embedded: the pure classification,
command-construction and reporting logic becomes Lean functions over `String`,
`List Char`, `Nat` and `Int`; the stateful drain loop of
`batch_download_worker` becomes a fold over an explicit trace of observed
cancellation-flag values and per-item results; the thread pool becomes a step
relation on an abstract pool state.  Machine integers do not overflow in the
modelled fragment (counters are Python unbounded ints), so `Nat` is used
directly.  Character case-folding models Python `str.lower` on the ASCII
range, which is the range exercised by every string constant in the source.
-/

/- ===================== generic string helpers ===================== -/

/-- `leads n h` holds when the list `n` is a leading segment of `h`
(Python `str.startswith` on the character level). -/
def leads : List Char → List Char → Bool
  | [], _ => true
  | _ :: _, [] => false
  | a :: n, b :: h => a == b && leads n h

/-- `isSubstr n h` holds when `n` occurs contiguously somewhere in `h`
(Python's `n in h` on `str`). -/
def isSubstr (n : List Char) : List Char → Bool
  | [] => n.isEmpty
  | c :: t => leads n (c :: t) || isSubstr n t

/-- Python `needle in hay` for strings. -/
def containsSub (hay needle : String) : Bool :=
  isSubstr needle.toList hay.toList

/-- Python `str.lower` on one character, on the ASCII range exercised by
every string constant of the source. -/
def py_lower_char (c : Char) : Char :=
  if 'A' ≤ c && c ≤ 'Z' then Char.ofNat (c.toNat + 32) else c

/-- Python `str.lower` (ASCII range). -/
def py_lower (s : String) : String :=
  String.mk (s.toList.map py_lower_char)

/-- Python whitespace recognised by `str.strip()` (ASCII range). -/
def is_py_space (c : Char) : Bool :=
  c == ' ' || c == '\t' || c == '\n' || c == '\r' || c == '\x0b' || c == '\x0c'

/-- Python `str.strip()`. -/
def py_strip (s : String) : String :=
  String.mk (((s.toList.dropWhile is_py_space).reverse.dropWhile is_py_space).reverse)

/-- Characters of the Python character class `[\x00-\x1f\x7f-\x9f]`
(non-printable control characters) used at src/main.py:1249. -/
def is_ctrl (c : Char) : Bool :=
  c.toNat ≤ 0x1f || (0x7f ≤ c.toNat && c.toNat ≤ 0x9f)

/-- Drop every non-printable control character
(`re.sub(r'[\x00-\x1f\x7f-\x9f]', '', s)`, src/main.py:1249). -/
def strip_ctrl (l : List Char) : List Char :=
  l.filter (fun c => !is_ctrl c)

/-- Scanner state for removing ANSI colour sequences (`\x1b\[[0-9;]*m`):
either no partial sequence is pending, a lone escape byte was seen, or
`ESC [` plus a run of digits/semicolons (`acc`) is pending. -/
inductive AnsiSt where
  | clear
  | esc
  | body (acc : List Char)

/-- The characters a pending partial ANSI sequence stands for, emitted
verbatim when the sequence fails to complete. -/
def ansi_flush : AnsiSt → List Char
  | .clear => []
  | .esc => ['\x1b']
  | .body acc => '\x1b' :: '[' :: acc

/-- One left-to-right pass removing every match of `\x1b\[[0-9;]*m`,
the regular expression of `re.sub` at src/main.py:1248, with the leftmost
non-overlapping semantics of `re.sub`. -/
def strip_ansi_go : AnsiSt → List Char → List Char
  | st, [] => ansi_flush st
  | .clear, c :: rest =>
      if c == '\x1b' then strip_ansi_go .esc rest
      else c :: strip_ansi_go .clear rest
  | .esc, c :: rest =>
      if c == '[' then strip_ansi_go (.body []) rest
      else if c == '\x1b' then '\x1b' :: strip_ansi_go .esc rest
      else '\x1b' :: c :: strip_ansi_go .clear rest
  | .body acc, c :: rest =>
      if c == 'm' then strip_ansi_go .clear rest
      else if c.isDigit || c == ';' then strip_ansi_go (.body (acc ++ [c])) rest
      else if c == '\x1b' then ('\x1b' :: '[' :: acc) ++ strip_ansi_go .esc rest
      else ('\x1b' :: '[' :: acc) ++ (c :: strip_ansi_go .clear rest)

/-- `re.sub(r'\x1b\[[0-9;]*m', '', s)` (src/main.py:1248). -/
def strip_ansi (l : List Char) : List Char :=
  strip_ansi_go .clear l

/-- First match of `re.search(r'"([^"]+)"', s)`: the leftmost non-empty run
of non-quote characters enclosed in double quotes (src/main.py:1123). -/
def first_quoted_aux : List Char → Option (List Char)
  | [] => none
  | '"' :: rest =>
      let body := rest.takeWhile (fun c => c ≠ '"')
      let rem := rest.dropWhile (fun c => c ≠ '"')
      match body, rem with
      | _ :: _, '"' :: _ => some body
      | _, _ => first_quoted_aux rest
  | _ :: rest => first_quoted_aux rest

/-- The first double-quoted substring of `s`, when one exists. -/
def first_quoted (s : String) : Option String :=
  (first_quoted_aux s.toList).map String.mk

/- ===================== outcome classification (src/main.py:1086-1130) ===================== -/

/-- The outcome taxonomy of the specification's `Outcome` data model (§3). -/
inductive Outcome where
  | downloaded
  | skipped
  | notFound (detail : String)
  | cancelled
  | failed
deriving DecidableEq

/-- Classification of a finished batch-path invocation, from
src/main.py:1117-1128: the combined `stdout + stderr` text is lowercased and
searched for literal substrings in the source's branch order; the
could-not-match branch extracts the first double-quoted substring of the raw
(unlowercased) output, defaulting to `"Unknown"`. -/
def classify_output (output : String) (returncode : Int) : String × Option String :=
  if containsSub (py_lower output) "already downloaded" || containsSub (py_lower output) "skipping"
      || (containsSub (py_lower output) "oserror" && containsSub (py_lower output) "already downloaded") then
    ("skipped", none)
  else if containsSub (py_lower output) "could not match" || containsSub (py_lower output) "lookuperror" then
    ("error", some ((first_quoted output).getD "Unknown"))
  else if returncode == 0 then
    ("downloaded", none)
  else
    ("error", none)

/-- The batch-path adapter `download_single` (src/main.py:1086-1130) as a
function of the cancellation state it can observe and of the finished
process's combined output and exit code.  The source reads
`self.is_downloading` exactly once, before building the command
(src/main.py:1088); the subprocess then runs under a blocking
`subprocess.run` call, so the source contains no read of the flag while the
process runs — `flag_during` is therefore never consulted. -/
def download_single_run (flag_before : Bool) (flag_during : Bool)
    (output : String) (returncode : Int) : String × Option String :=
  if !flag_before then ("cancelled", none)
  else classify_output output returncode

/-- Mapping from the source's result-tag pairs to the specification's
`Outcome` taxonomy (§3): `"error"` with an extracted detail is the
spec's `NotFound`, `"error"` without one is `Failed`. -/
def pair_outcome : String × Option String → Outcome
  | ("cancelled", _) => .cancelled
  | ("skipped", _) => .skipped
  | ("downloaded", _) => .downloaded
  | ("error", some d) => .notFound d
  | _ => .failed

/-- Written from the specification's words (§4.2 step 5, for comparison with
`classify_output`): "strip ANSI escape sequences and non-printable control
characters from captured text, then classify by case-insensitive substring
search, in this precedence order: already downloaded/skipping → Skipped;
could not match/lookup-error marker → NotFound (detail = first quoted
substring found, else empty); exit code zero → Downloaded; anything else →
Failed". -/
def spec_classify (output : String) (returncode : Int) : Outcome :=
  let text := String.mk (strip_ctrl (strip_ansi output.toList))
  if containsSub (py_lower text) "already downloaded" || containsSub (py_lower text) "skipping" then
    .skipped
  else if containsSub (py_lower text) "could not match" || containsSub (py_lower text) "lookuperror" then
    .notFound ((first_quoted text).getD "")
  else if returncode == 0 then
    .downloaded
  else
    .failed

/-- Written from the specification's words (§4.2 steps 1 and 4, for
comparison with `download_single_run`): a set cancellation flag before
spawning returns Cancelled, the flag becoming set while the process runs
terminates it and returns Cancelled, and a normal exit is classified. -/
def spec_invoke (flag_before : Bool) (flag_during : Bool)
    (output : String) (returncode : Int) : Outcome :=
  if !flag_before then .cancelled
  else if !flag_during then .cancelled
  else spec_classify output returncode

/-- The batch-path classifier as actually implemented, restated without the
redundant `oserror` conjunct: raw (unstripped) output, lowercase substring
search in source order, `"Unknown"` as the missing-detail default. -/
def amended_classify (output : String) (returncode : Int) : String × Option String :=
  if containsSub (py_lower output) "already downloaded" || containsSub (py_lower output) "skipping" then
    ("skipped", none)
  else if containsSub (py_lower output) "could not match" || containsSub (py_lower output) "lookuperror" then
    ("error", some ((first_quoted output).getD "Unknown"))
  else if returncode == 0 then
    ("downloaded", none)
  else
    ("error", none)

/- ===================== dialect detection (src/main.py:1066-1075, 1193-1201) ===================== -/

/-- `is_v4 = "4." in (ver_check.stdout + ver_check.stderr)`
(src/main.py:1073 and src/main.py:1199). -/
def detect_is_v4 (stdout stderr : String) : Bool :=
  containsSub (stdout ++ stderr) "4."

/-- The whole version probe of `batch_download_worker`
(src/main.py:1066-1075).  `probe = none` models the `subprocess.run` call
raising (tool missing): the `except Exception` arm assigns `is_v4 = False`.
`probe = some (stdout, stderr, returncode)` models a probe process that ran
and exited; `subprocess.run` is called without `check=True`, so a non-zero
exit does not raise, and the source never reads `ver_check.returncode`. -/
def detect_dialect_batch (probe : Option (String × String × Int)) : Bool :=
  match probe with
  | none => false
  | some (out, err, _) => detect_is_v4 out err

/- ===================== command construction (src/main.py:1091-1105, 1203-1219) ===================== -/

/-- POSIX `os.path.join(a, b)` for the fixed, relative template `b` passed at
src/main.py:1095 and src/main.py:1208. -/
def path_join (a b : String) : String :=
  if a = "" then b
  else if a.toList.getLast? = some '/' then a ++ b
  else a ++ "/" ++ b

/-- The invocation command of the batch-path adapter (src/main.py:1091-1105),
identical to the one built in `download_single_song` (src/main.py:1203-1219).
`py` stands for `sys.executable`. -/
def build_cmd (is_v4 : Bool) (py url output_folder audio_format : String) : List String :=
  if is_v4 then
    [py, "-m", "spotdl", "download", url,
     "--output", path_join output_folder "{artist} - {title}.{output-ext}",
     "--format", audio_format]
  else
    [py, "-m", "spotdl", url,
     "--output", output_folder,
     "--output-format", audio_format,
     "--path-template", "{artist} - {title}.{ext}"]

/-- Argument tokens that belong to exactly one of the two dialect grammars:
`download` and `--format` are v4-only, `--output-format` and
`--path-template` are legacy-only (`--output` appears in both). -/
def v4_only_args : List String := ["download", "--format"]

/-- Legacy-only argument tokens. -/
def legacy_only_args : List String := ["--output-format", "--path-template"]

/-- All dialect-distinguishing argument tokens. -/
def dialect_markers : List String := v4_only_args ++ legacy_only_args

/-- Number of `spotdl --version` probe subprocesses run by one call of
`batch_download_worker`, regardless of how many URLs the batch holds: the
probe at src/main.py:1066-1075 sits before the worker pool and runs once. -/
def batch_worker_probe_count (urls : List String) : Nat :=
  match urls with
  | _ => 1

/-- Number of version probes one `download_single_song` call runs: zero when
the cancellation check at src/main.py:1187-1188 returns early, otherwise one
(the `subprocess.run` probe at src/main.py:1193-1201). -/
def single_song_probe_count (is_downloading : Bool) : Nat :=
  if is_downloading then 1 else 0

/-- Number of version probes run by a `download_worker` batch
(src/main.py:1282-1287): one per submitted item that observes the flag still
set, because each pool task is a fresh `download_single_song` call. -/
def download_worker_probe_count (flags : List Bool) : Nat :=
  (flags.map single_song_probe_count).sum

/- ===================== progress counters and the drain loop (src/main.py:1138-1162) ===================== -/

/-- The four counters of `batch_download_worker` (src/main.py:1080-1083). -/
structure Counters where
  downloaded : Nat
  skipped : Nat
  errors : Nat
  completed : Nat
deriving DecidableEq

/-- All counters zero, the state at batch start (src/main.py:1080-1083). -/
def zero_counters : Counters := ⟨0, 0, 0, 0⟩

/-- Pointwise order on counter states. -/
def Counters.le (a b : Counters) : Prop :=
  a.downloaded ≤ b.downloaded ∧ a.skipped ≤ b.skipped ∧
  a.errors ≤ b.errors ∧ a.completed ≤ b.completed

/-- The counted (non-cancelled) outcomes: `downloaded + skipped + errors`. -/
def counted (c : Counters) : Nat :=
  c.downloaded + c.skipped + c.errors

/-- The locked update of src/main.py:1146-1153: `completed` always advances,
and exactly one of the three outcome counters advances when the result tag is
`"downloaded"`, `"skipped"` or `"error"` (a `"cancelled"` tag advances only
`completed`). -/
def count_step (c : Counters) (r : String × Option String) : Counters :=
  let c' : Counters := { c with completed := c.completed + 1 }
  if r.1 = "downloaded" then { c' with downloaded := c'.downloaded + 1 }
  else if r.1 = "skipped" then { c' with skipped := c'.skipped + 1 }
  else if r.1 = "error" then { c' with errors := c'.errors + 1 }
  else c'

/-- The `as_completed` drain loop of src/main.py:1138-1162 as a fold over an
explicit trace: each entry pairs the value of `self.is_downloading` observed
at the loop-top check (src/main.py:1139) with the result the awaited future
delivers.  A `false` flag triggers the early `return` of src/main.py:1140-1142
(result component `true` = the loop ended through that cancellation return,
leaving the remaining trace unprocessed). -/
def drain_loop : List (Bool × (String × Option String)) → Counters → Counters × Bool
  | [], c => (c, false)
  | (flag, r) :: rest, c =>
      if !flag then (c, true)
      else drain_loop rest (count_step c r)

/- ===================== thread pool (src/main.py:1135-1136, 1282-1287) ===================== -/

/-- Modelled from the spec: §5's "bounded worker pool of parallel execution
units" realised in the source by `concurrent.futures.ThreadPoolExecutor`
(library code, not part of src/).  `pending` counts submitted items no worker
has picked up, `running` counts items currently executing. -/
structure PoolSt where
  pending : Nat
  running : Nat
deriving DecidableEq

/-- Modelled from the spec: the pool's two events — a worker starts a pending
item only while fewer than `limit` items run, and a running item finishes. -/
inductive PoolStep (limit : Nat) : PoolSt → PoolSt → Prop where
  | start : ∀ p r, 0 < p → r < limit → PoolStep limit ⟨p, r⟩ ⟨p - 1, r + 1⟩
  | finish : ∀ p r, 0 < r → PoolStep limit ⟨p, r⟩ ⟨p, r - 1⟩

/-- Reachability under `PoolStep` from an initial state. -/
inductive PoolReach (limit : Nat) (init : PoolSt) : PoolSt → Prop where
  | refl : PoolReach limit init init
  | step : ∀ s t, PoolReach limit init s → PoolStep limit s t → PoolReach limit init t

/-- The explicit `executor.shutdown(wait=False, cancel_futures=True)` call
(src/main.py:1140 and src/main.py:1292), per its documented contract: the
pending (not-yet-started) futures are cancelled, so no new invocation will be
started, while the worker threads keep running their current invocations and
the call itself does not wait for them.  This is the pool state at the moment
the `return`/`break` statement executes, still inside the `with` block. -/
def shutdown_cancel_pending (s : PoolSt) : PoolSt :=
  ⟨0, s.running⟩

/-- Leaving the `with ThreadPoolExecutor(...)` block (src/main.py:1135,
src/main.py:1282): the context manager's exit handler calls
`shutdown(wait=True)`, which joins the worker threads after each has run its
remaining (non-cancelled) work to completion — so at the point the dispatcher
function actually returns, no invocation is pending or still running. -/
def executor_exit_join (_s : PoolSt) : PoolSt :=
  ⟨0, 0⟩

/- ===================== terminal report (src/main.py:1164-1180, 1336-1348) ===================== -/

/-- The final message selection of `batch_download_worker`
(src/main.py:1164-1180): the pair is (`success` flag, message) passed to
`download_complete`. -/
def batch_final_report (downloaded skipped errors : Nat) : Bool × String :=
  if 0 < downloaded ∨ 0 < skipped then
    let base :=
      if 0 < downloaded ∧ 0 < skipped then
        "Done! " ++ toString downloaded ++ " downloaded, " ++ toString skipped ++ " already existed"
      else if 0 < downloaded then
        "Downloaded " ++ toString downloaded ++ " songs!"
      else if 0 < skipped then
        "All " ++ toString skipped ++ " songs already existed"
      else
        "Download complete"
    let msg := if 0 < errors then base ++ " (" ++ toString errors ++ " failed)" else base
    (true, msg)
  else if 0 < errors then
    (false, toString errors ++ " songs failed to download")
  else
    (false, "No songs found or downloaded")

/-- Whether `download_complete` (src/main.py:1336-1348) raises the modal
error dialog: only on failure, and suppressed when `"cancel"` occurs in the
lowercased message (src/main.py:1347-1348). -/
def download_complete_error_dialog (success : Bool) (message : String) : Bool :=
  !success && !(containsSub (py_lower message) "cancel")

/- ===================== start commands (src/main.py:953-978) ===================== -/

/-- What `start_url_download` does after reading the entry text. -/
inductive StartAction where
  | warnEmptyUrl
  | errorInvalidUrl
  | dispatchBatch (url : String)
  | dispatchSingle (url : String)
deriving DecidableEq

/-- `clean_url` (src/main.py:709-710): `url.split('?')[0]`. -/
def clean_url (s : String) : String :=
  String.mk (s.toList.takeWhile (fun c => c ≠ '?'))

/-- The character class `[a-zA-Z0-9]` of the URL pattern (src/main.py:706). -/
def is_alnum (c : Char) : Bool :=
  ('a' ≤ c && c ≤ 'z') || ('A' ≤ c && c ≤ 'Z') || ('0' ≤ c && c ≤ '9')

/-- `matches_at stem s`: `s` starts with `stem` followed by at least one
`[a-zA-Z0-9]` character — the anchored-at-start semantics of `re.match` for
one alternative of the pattern at src/main.py:706. -/
def matches_at : List Char → List Char → Bool
  | [], c :: _ => is_alnum c
  | [], [] => false
  | _ :: _, [] => false
  | a :: stem, b :: s => a == b && matches_at stem s

/-- The alternatives of `https?://open\.spotify\.com/(track|album|playlist|artist)/`
expanded (src/main.py:706). -/
def spotify_url_stems : List String :=
  ["https://open.spotify.com/track/", "https://open.spotify.com/album/",
   "https://open.spotify.com/playlist/", "https://open.spotify.com/artist/",
   "http://open.spotify.com/track/", "http://open.spotify.com/album/",
   "http://open.spotify.com/playlist/", "http://open.spotify.com/artist/"]

/-- `validate_url` (src/main.py:705-707):
`bool(re.match(pattern, url.split('?')[0]))`. -/
def validate_url (url : String) : Bool :=
  spotify_url_stems.any (fun p => matches_at p.toList (clean_url url).toList)

/-- `start_url_download` (src/main.py:953-970) as a function of the
downloading state and the raw entry text.  The source never reads
`self.is_downloading` in this method — `is_downloading` is unused below,
mirroring that — and dispatches a batch worker for playlist/album URLs and a
single-song worker otherwise. -/
def start_url_download (is_downloading : Bool) (rawUrl : String) : StartAction :=
  let url := py_strip rawUrl
  if url = "" then .warnEmptyUrl
  else if validate_url url = false then .errorInvalidUrl
  else
    let c := clean_url url
    if containsSub c "/playlist/" || containsSub c "/album/" then .dispatchBatch c
    else .dispatchSingle c

/-- What `download_liked_songs` does before any dialog is shown. -/
inductive LikedAction where
  | warnNotConnected
  | noopAlreadyDownloading
  | promptAndFetch
deriving DecidableEq

/-- The guards of `download_liked_songs` (src/main.py:972-978): missing
Spotify client warns; `self.is_downloading` set returns immediately;
otherwise the limit dialog is shown and the fetch proceeds. -/
def download_liked_songs (connected is_downloading : Bool) : LikedAction :=
  if !connected then .warnNotConnected
  else if is_downloading then .noopAlreadyDownloading
  else .promptAndFetch

/- ===================== single-song line loop (src/main.py:1236-1243) ===================== -/

/-- The `readline` loop of `download_single_song` (src/main.py:1236-1243) over
a trace pairing each arriving output line with the `self.is_downloading`
value observed just after it is read: a `false` observation runs
`process.terminate()` and returns `(None, None)` (modelled `none`); otherwise
the line is appended and reading continues. -/
def read_lines_loop : List (Bool × String) → Option (List String)
  | [] => some []
  | (flag, l) :: rest =>
      if !flag then none
      else (read_lines_loop rest).map (l :: ·)

/-- The cancellation-relevant shape of the single-song adapter
`download_single_song` (src/main.py:1185-1243): the method opens with the
pre-spawn check `if not self.is_downloading: return None, None`
(src/main.py:1187-1188), so a cleared flag yields `none` before any
subprocess is started; otherwise the process is spawned and its output is
consumed by the `readline` loop modelled by `read_lines_loop`.  `none` is the
`(None, None)` cancellation return of either check. -/
def download_single_song_run (flag_before : Bool) (lines : List (Bool × String)) :
    Option (List String) :=
  if !flag_before then none
  else read_lines_loop lines

/- ===================== helper lemmas ===================== -/

theorem leads_iff (n : List Char) : ∀ h : List Char, leads n h = true ↔ ∃ t, h = n ++ t := by
  induction n with
  | nil => intro h; simp [leads]
  | cons a n ih =>
    intro h
    cases h with
    | nil => simp [leads]
    | cons b h' =>
      simp only [leads, Bool.and_eq_true, beq_iff_eq, ih, List.cons_append, List.cons_eq_cons]
      constructor
      · rintro ⟨rfl, t, rfl⟩; exact ⟨t, rfl, rfl⟩
      · rintro ⟨t, rfl, rfl⟩; exact ⟨rfl, t, rfl⟩

theorem isSubstr_iff (n : List Char) : ∀ h : List Char,
    isSubstr n h = true ↔ ∃ p t, h = p ++ n ++ t := by
  intro h
  induction h with
  | nil =>
    simp [isSubstr, List.isEmpty_iff]
  | cons c h' ih =>
    simp only [isSubstr, Bool.or_eq_true, leads_iff, ih]
    constructor
    · rintro (⟨t, ht⟩ | ⟨p, t, rfl⟩)
      · exact ⟨[], t, by simpa using ht⟩
      · exact ⟨c :: p, t, rfl⟩
    · rintro ⟨p, t, hp⟩
      cases p with
      | nil => exact Or.inl ⟨t, by simpa using hp⟩
      | cons x p' =>
        rcases List.cons_eq_cons.mp hp with ⟨rfl, rfl⟩
        exact Or.inr ⟨p', t, rfl⟩

theorem counters_le_refl (c : Counters) : Counters.le c c :=
  ⟨le_refl _, le_refl _, le_refl _, le_refl _⟩

theorem counters_le_trans {a b c : Counters} (h1 : Counters.le a b) (h2 : Counters.le b c) :
    Counters.le a c :=
  ⟨h1.1.trans h2.1, h1.2.1.trans h2.2.1, h1.2.2.1.trans h2.2.2.1, h1.2.2.2.trans h2.2.2.2⟩

theorem count_step_le (c : Counters) (r : String × Option String) :
    Counters.le c (count_step c r) := by
  unfold count_step Counters.le
  repeat' split
  all_goals simp

theorem count_step_completed (c : Counters) (r : String × Option String) :
    (count_step c r).completed = c.completed + 1 := by
  unfold count_step
  repeat' split
  all_goals simp

theorem count_step_counted_le (c : Counters) (r : String × Option String) :
    counted (count_step c r) ≤ counted c + 1 := by
  unfold count_step counted
  repeat' split
  all_goals simp
  all_goals omega

theorem count_step_counted_eq (c : Counters) (r : String × Option String)
    (h : r.1 = "downloaded" ∨ r.1 = "skipped" ∨ r.1 = "error") :
    counted (count_step c r) = counted c + 1 := by
  unfold count_step counted
  rcases h with h | h | h <;> simp [h] <;> omega

theorem drain_loop_le (trace : List (Bool × (String × Option String))) :
    ∀ c : Counters, Counters.le c (drain_loop trace c).1 := by
  induction trace with
  | nil => intro c; exact counters_le_refl c
  | cons x rest ih =>
    intro c
    obtain ⟨flag, r⟩ := x
    cases flag with
    | false => exact counters_le_refl c
    | true =>
      simpa [drain_loop] using counters_le_trans (count_step_le c r) (ih (count_step c r))

theorem drain_loop_append (t1 t2 : List (Bool × (String × Option String))) :
    ∀ c : Counters, drain_loop (t1 ++ t2) c =
      if (drain_loop t1 c).2 then drain_loop t1 c else drain_loop t2 (drain_loop t1 c).1 := by
  induction t1 with
  | nil => intro c; simp [drain_loop]
  | cons x rest ih =>
    intro c
    obtain ⟨flag, r⟩ := x
    cases flag <;> simp [drain_loop, ih]

theorem drain_loop_completed_le (trace : List (Bool × (String × Option String))) :
    ∀ c : Counters, (drain_loop trace c).1.completed ≤ c.completed + trace.length := by
  induction trace with
  | nil => intro c; simp [drain_loop]
  | cons x rest ih =>
    intro c
    obtain ⟨flag, r⟩ := x
    cases flag with
    | false => simp [drain_loop]
    | true =>
      have hrw : drain_loop ((true, r) :: rest) c = drain_loop rest (count_step c r) := rfl
      have h1 := ih (count_step c r)
      have h2 := count_step_completed c r
      rw [hrw, List.length_cons]
      omega

theorem drain_loop_counted_le (trace : List (Bool × (String × Option String))) :
    ∀ c : Counters, counted c ≤ c.completed →
      counted (drain_loop trace c).1 ≤ (drain_loop trace c).1.completed := by
  induction trace with
  | nil => intro c h; simpa [drain_loop] using h
  | cons x rest ih =>
    intro c h
    obtain ⟨flag, r⟩ := x
    cases flag with
    | false => simpa [drain_loop] using h
    | true =>
      simp only [drain_loop, Bool.not_true, ite_false]
      refine ih (count_step c r) ?_
      have h1 := count_step_counted_le c r
      have h2 := count_step_completed c r
      omega

theorem drain_loop_completed_eq (trace : List (Bool × (String × Option String))) :
    ∀ c : Counters, (drain_loop trace c).2 = false →
      (drain_loop trace c).1.completed = c.completed + trace.length := by
  induction trace with
  | nil => intro c _; simp [drain_loop]
  | cons x rest ih =>
    intro c h
    obtain ⟨flag, r⟩ := x
    cases flag with
    | false => simp [drain_loop] at h
    | true =>
      have hrw : drain_loop ((true, r) :: rest) c = drain_loop rest (count_step c r) := rfl
      rw [hrw] at h ⊢
      have h1 := ih (count_step c r) h
      have h2 := count_step_completed c r
      rw [List.length_cons]
      omega

theorem drain_loop_counted_eq (trace : List (Bool × (String × Option String))) :
    ∀ c : Counters, (drain_loop trace c).2 = false →
      (∀ x ∈ trace, (x.2).1 = "downloaded" ∨ (x.2).1 = "skipped" ∨ (x.2).1 = "error") →
      counted (drain_loop trace c).1 = counted c + trace.length := by
  induction trace with
  | nil => intro c _ _; simp [drain_loop]
  | cons x rest ih =>
    intro c h htags
    obtain ⟨flag, r⟩ := x
    cases flag with
    | false => simp [drain_loop] at h
    | true =>
      have hrw : drain_loop ((true, r) :: rest) c = drain_loop rest (count_step c r) := rfl
      rw [hrw] at h ⊢
      have hr := htags (true, r) (List.mem_cons_self _ _)
      have h1 := ih (count_step c r) h (fun y hy => htags y (List.mem_cons_of_mem _ hy))
      have h2 := count_step_counted_eq c r hr
      rw [List.length_cons]
      omega

theorem drain_loop_stop (pre : List (Bool × (String × Option String)))
    (r : String × Option String) (post : List (Bool × (String × Option String))) :
    ∀ c : Counters, (∀ x ∈ pre, x.1 = true) →
      drain_loop (pre ++ (false, r) :: post) c = ((drain_loop pre c).1, true) := by
  induction pre with
  | nil => intro c _; simp [drain_loop]
  | cons x rest ih =>
    intro c hall
    obtain ⟨flag, r'⟩ := x
    have hf : flag = true := hall (flag, r') (List.mem_cons_self _ _)
    subst hf
    simp only [List.cons_append, drain_loop, Bool.not_true, ite_false]
    exact ih (count_step c r') (fun y hy => hall y (List.mem_cons_of_mem _ hy))

/- ===================== claim theorems ===================== -/

/-- C1 counterexample: the batch-path classifier does not implement the
claimed classification.  At output `"could not match"` (no quoted substring)
with exit code 1 the code's NotFound detail is `"Unknown"` while the claim
demands the empty string; at output `"skip\x1b[0mping"` with exit code 0 the
claim's pre-classification ANSI stripping would yield Skipped while the code,
which never strips before classifying, yields Downloaded. -/
theorem classify_spec_mismatch_cx :
    pair_outcome (classify_output "could not match" 1) ≠ spec_classify "could not match" 1
    ∧ pair_outcome (classify_output "skip\x1b[0mping" 0) ≠ spec_classify "skip\x1b[0mping" 0 := by
  constructor <;> decide

/-- C1 (amended): for every normally exited batch-path invocation the code
classifies the raw (unstripped) combined output, lowercased, by substring
search in this precedence: "already downloaded"/"skipping" → skipped;
"could not match"/"lookuperror" → error with detail the first double-quoted
substring of the output, or "Unknown" when none exists; exit code zero →
downloaded; anything else → error.  No ANSI or control stripping happens
before classification in this path. -/
theorem classify_amended_correct :
    ∀ (output : String) (rc : Int), classify_output output rc = amended_classify output rc := by
  intro output rc
  unfold classify_output amended_classify
  cases ha : containsSub (py_lower output) "already downloaded"
    <;> cases hb : containsSub (py_lower output) "skipping"
    <;> simp [ha, hb]

/-- C3 counterexample: the batch-path adapter observes the cancellation flag
only before spawning; a flag that becomes set while the external process runs
is never consulted, so the adapter classifies the finished process
(Downloaded here) instead of terminating it and returning Cancelled as the
claim states. -/
theorem midrun_cancel_not_observed_cx :
    download_single_run true false "" 0 = ("downloaded", none)
    ∧ spec_invoke true false "" 0 = Outcome.cancelled := by
  constructor <;> decide

/-- C3 (amended): the before-spawn check holds in both adapters — a cleared
`is_downloading` flag yields the cancelled result with no subprocess.  The
batch-path adapter performs no during-execution check: its result is
independent of the flag value while the process runs.  Only the single-song
adapter checks the flag at every output line, terminating the process and
returning the cancelled result (`none`) when the flag is observed cleared,
and collecting all lines otherwise. -/
theorem cancellation_checks_amended :
    (∀ (fd : Bool) (out : String) (rc : Int),
        download_single_run false fd out rc = ("cancelled", none))
    ∧ (∀ lines : List (Bool × String), download_single_song_run false lines = none)
    ∧ (∀ (fd fd' : Bool) (out : String) (rc : Int),
        download_single_run true fd out rc = download_single_run true fd' out rc)
    ∧ (∀ (pre post : List (Bool × String)) (l : String),
        download_single_song_run true (pre ++ (false, l) :: post) = none)
    ∧ (∀ lines : List (Bool × String), (∀ x ∈ lines, x.1 = true) →
        download_single_song_run true lines = some (lines.map (fun x => x.2))) := by
  refine ⟨fun _ _ _ => rfl, fun _ => rfl, fun _ _ _ _ => rfl, ?_, ?_⟩
  · intro pre post l
    show read_lines_loop (pre ++ (false, l) :: post) = none
    induction pre with
    | nil => rfl
    | cons x rest ih =>
      obtain ⟨flag, s⟩ := x
      cases flag with
      | false => rfl
      | true => simpa [read_lines_loop] using ih
  · intro lines hall
    show read_lines_loop lines = some (lines.map (fun x => x.2))
    induction lines with
    | nil => rfl
    | cons x rest ih =>
      obtain ⟨flag, s⟩ := x
      have hf : flag = true := hall (flag, s) (List.mem_cons_self _ _)
      subst hf
      have := ih (fun y hy => hall y (List.mem_cons_of_mem _ hy))
      simp [read_lines_loop, this]

/-- C3 witness: applying the amended theorem at concrete inputs. -/
theorem cancellation_checks_amended_witness :
    download_single_song_run true [(true, "a"), (true, "b")] = some ["a", "b"] :=
  cancellation_checks_amended.2.2.2.2 [(true, "a"), (true, "b")] (by decide)

/-- C8 counterexample: a version probe that exits non-zero does not degrade
to the Legacy dialect — `subprocess.run` is called without `check=True`, so a
non-zero exit raises nothing, the exit code is never read, and an output
containing "4." selects the Current dialect (`true`) despite exit code 1. -/
theorem nonzero_exit_not_legacy_cx :
    detect_dialect_batch (some ("spotdl 4.2.5", "", 1)) = true := by
  decide

/-- C8 (amended): only an exception from invoking the probe (tool missing)
makes the detector default to Legacy (`false`); a probe that runs and exits
is classified solely from its combined output text, with the exit code
ignored entirely. -/
theorem probe_failure_amended :
    detect_dialect_batch none = false
    ∧ ∀ (out err : String) (rc rc' : Int),
        detect_dialect_batch (some (out, err, rc)) = detect_dialect_batch (some (out, err, rc')) :=
  ⟨rfl, fun _ _ _ _ => rfl⟩

/-- C10: the dialect detector selects the Current (v4) dialect exactly when
the two-character string "4." occurs contiguously in the concatenation of the
probe's stdout and stderr; consequently the non-Current version text "3.4.2"
selects Current, while "3.5.2" does not. -/
theorem v4_detection_substring :
    (∀ s e : String, detect_is_v4 s e = true ↔
        ∃ p t, (s ++ e).toList = p ++ "4.".toList ++ t)
    ∧ detect_is_v4 "3.4.2" "" = true
    ∧ detect_is_v4 "3.5.2" "" = false := by
  refine ⟨fun s e => ?_, by decide, by decide⟩
  unfold detect_is_v4 containsSub
  exact isSubstr_iff "4.".toList (s ++ e).toList

/-- C2: over the drain loop of a batch, every processed work item advances
`completed` exactly once, every counter is monotonically non-decreasing along
the snapshot sequence, the counted outcomes never exceed the number of
submitted items, and they equal it when no cancellation truncated the loop
and every delivered result carries a counted tag. -/
theorem batch_counters_invariant (tr : List (Bool × (String × Option String))) :
    (∀ k : Nat, Counters.le (drain_loop (tr.take k) zero_counters).1
        (drain_loop (tr.take (k + 1)) zero_counters).1)
    ∧ counted (drain_loop tr zero_counters).1 ≤ (drain_loop tr zero_counters).1.completed
    ∧ (drain_loop tr zero_counters).1.completed ≤ tr.length
    ∧ ((drain_loop tr zero_counters).2 = false →
        (drain_loop tr zero_counters).1.completed = tr.length)
    ∧ ((drain_loop tr zero_counters).2 = false →
        (∀ x ∈ tr, (x.2).1 = "downloaded" ∨ (x.2).1 = "skipped" ∨ (x.2).1 = "error") →
        counted (drain_loop tr zero_counters).1 = tr.length) := by
  refine ⟨?_, ?_, ?_, ?_, ?_⟩
  · intro k
    rw [List.take_succ, drain_loop_append]
    split
    · exact counters_le_refl _
    · cases hk : tr[k]? with
      | none => exact counters_le_refl _
      | some x =>
        obtain ⟨flag, r⟩ := x
        cases flag with
        | false => exact counters_le_refl _
        | true => exact count_step_le _ r
  · exact drain_loop_counted_le tr zero_counters (by simp [counted, zero_counters])
  · simpa [zero_counters] using drain_loop_completed_le tr zero_counters
  · intro h
    simpa [zero_counters] using drain_loop_completed_eq tr zero_counters h
  · intro h htags
    simpa [counted, zero_counters] using drain_loop_counted_eq tr zero_counters h htags

/-- C2 witness: applying the invariant to a concrete fully drained trace. -/
theorem batch_counters_invariant_witness :
    counted (drain_loop [(true, ("downloaded", none)), (true, ("error", some "X"))]
        zero_counters).1 = 2 :=
  (batch_counters_invariant [(true, ("downloaded", none)), (true, ("error", some "X"))]).2.2.2.2
    (by decide) (by decide)

/-- C4: in the pool transition system, every state reachable from a batch
start (`n` pending items, nothing running) under a concurrency limit of at
least one has at most `limit` invocations running at any instant. -/
theorem pool_concurrency_bound (limit n : Nat) (s : PoolSt)
    (hlim : 1 ≤ limit) (h : PoolReach limit ⟨n, 0⟩ s) : s.running ≤ limit := by
  clear hlim
  induction h with
  | refl => exact Nat.zero_le limit
  | step s' t hreach hstep ih =>
    cases hstep with
    | start p r hp hr => exact hr
    | finish p r hr => simp only at ih ⊢; omega

/-- C4 witness: the bound at a concrete reachable state. -/
theorem pool_concurrency_bound_witness : (⟨2, 1⟩ : PoolSt).running ≤ 2 :=
  pool_concurrency_bound 2 3 ⟨2, 1⟩ (by decide)
    (PoolReach.step _ _ PoolReach.refl (PoolStep.start 3 0 (by decide) (by decide)))

/-- C5 counterexample: the single-song path re-probes the tool's dialect on
every invocation — a two-item batch through `download_worker` runs the
version probe twice, contradicting "probed at most once per batch". -/
theorem single_path_reprobe_cx : 1 < download_worker_probe_count [true, true] := by
  decide

/-- C5 (amended): the batch worker probes the dialect exactly once per batch
and uses the cached result for every command, while the single-song path runs
one probe per (non-cancelled) submitted item; in both paths every command is
built entirely from one dialect's argument grammar — no command ever carries
both a v4-only and a legacy-only dialect marker. -/
theorem dialect_probe_no_mix_amended :
    (∀ urls : List String, batch_worker_probe_count urls = 1)
    ∧ (∀ flags : List Bool, (∀ f ∈ flags, f = true) →
        download_worker_probe_count flags = flags.length)
    ∧ (∀ (v4 : Bool) (py url folder fmt : String),
        py ∉ dialect_markers → url ∉ dialect_markers → fmt ∉ dialect_markers →
        folder ∉ dialect_markers →
        path_join folder "{artist} - {title}.{output-ext}" ∉ dialect_markers →
        ¬((∃ a ∈ build_cmd v4 py url folder fmt, a ∈ v4_only_args)
          ∧ (∃ b ∈ build_cmd v4 py url folder fmt, b ∈ legacy_only_args))) := by
  refine ⟨fun urls => rfl, ?_, ?_⟩
  · intro flags hall
    induction flags with
    | nil => rfl
    | cons f rest ih =>
      have hf : f = true := hall f (List.mem_cons_self _ _)
      subst hf
      have := ih (fun y hy => hall y (List.mem_cons_of_mem _ hy))
      simp [download_worker_probe_count, single_song_probe_count, List.length_cons] at this ⊢
      omega
  · rintro v4 py url folder fmt hpy hurl hfmt hfolder hjoin ⟨hv4, b, hbmem, hbleg⟩
    have hmark : ∀ x : String, x ∈ legacy_only_args → x ∈ dialect_markers := by
      intro x hx
      simp [dialect_markers, v4_only_args, legacy_only_args] at hx ⊢
      tauto
    have hmark' : ∀ x : String, x ∈ v4_only_args → x ∈ dialect_markers := by
      intro x hx
      simp [dialect_markers, v4_only_args, legacy_only_args] at hx ⊢
      tauto
    cases v4 with
    | true =>
      simp only [build_cmd, ite_true, List.mem_cons, List.not_mem_nil, or_false] at hbmem
      rcases hbmem with rfl | rfl | rfl | rfl | rfl | rfl | rfl | rfl | rfl
      · exact hpy (hmark _ hbleg)
      · revert hbleg; decide
      · revert hbleg; decide
      · revert hbleg; decide
      · exact hurl (hmark _ hbleg)
      · revert hbleg; decide
      · exact hjoin (hmark _ hbleg)
      · revert hbleg; decide
      · exact hfmt (hmark _ hbleg)
    | false =>
      obtain ⟨a, hamem, hav4⟩ := hv4
      simp only [build_cmd, Bool.false_eq_true, ite_false, List.mem_cons, List.not_mem_nil,
        or_false] at hamem
      rcases hamem with rfl | rfl | rfl | rfl | rfl | rfl | rfl | rfl | rfl | rfl
      · exact hpy (hmark' _ hav4)
      · revert hav4; decide
      · revert hav4; decide
      · exact hurl (hmark' _ hav4)
      · revert hav4; decide
      · exact hfolder (hmark' _ hav4)
      · revert hav4; decide
      · exact hfmt (hmark' _ hav4)
      · revert hav4; decide
      · revert hav4; decide

/-- C5 witness: applying the amended theorem at concrete inputs. -/
theorem dialect_probe_no_mix_amended_witness :
    download_worker_probe_count [true] = 1
    ∧ ¬((∃ a ∈ build_cmd true "py" "u" "d" "mp3", a ∈ v4_only_args)
        ∧ (∃ b ∈ build_cmd true "py" "u" "d" "mp3", b ∈ legacy_only_args)) :=
  ⟨dialect_probe_no_mix_amended.2.1 [true] (by decide),
   dialect_probe_no_mix_amended.2.2 true "py" "u" "d" "mp3"
     (by decide) (by decide) (by decide) (by decide) (by decide)⟩

/-- C6: when the drain loop observes the cancellation flag cleared, the
dispatcher stops on the spot — the counters are exactly those of the prefix
before the observation and no further completion is consumed or submission
issued — and at its actual return every in-flight invocation has been drained
to completion: the explicit shutdown cancels all pending futures without
starting new work, and leaving the `with` block joins the worker threads, so
the pool state at return has nothing pending and nothing running (no external
process is leaked or abandoned). -/
theorem cancellation_drain_on_return :
    (∀ (pre : List (Bool × (String × Option String))) (r : String × Option String)
        (post : List (Bool × (String × Option String))),
        (∀ x ∈ pre, x.1 = true) →
        drain_loop (pre ++ (false, r) :: post) zero_counters
          = ((drain_loop pre zero_counters).1, true))
    ∧ (∀ s : PoolSt, (shutdown_cancel_pending s).pending = 0)
    ∧ (∀ s : PoolSt, executor_exit_join (shutdown_cancel_pending s) = ⟨0, 0⟩) :=
  ⟨fun pre r post h => drain_loop_stop pre r post zero_counters h,
   fun _ => rfl, fun _ => rfl⟩

/-- C6 witness: applying the theorem at a concrete trace. -/
theorem cancellation_drain_on_return_witness :
    drain_loop [(true, ("downloaded", none)), (false, ("skipped", none))] zero_counters
      = ((drain_loop [(true, ("downloaded", none))] zero_counters).1, true) :=
  cancellation_drain_on_return.1 [(true, ("downloaded", none))] ("skipped", none) []
    (by decide)

/-- C7: the terminal report of a completed batch is a success exactly when at
least one outcome was downloaded or skipped; with zero successes and at least
one failure it is an error message carrying the failure count; and the
cancellation message, passed with `success = false`, never raises the error
dialog (the `"cancel"` substring suppresses it). -/
theorem final_report_correct :
    ∀ d s e : Nat,
      ((batch_final_report d s e).1 = true ↔ 0 < d ∨ 0 < s)
      ∧ (d = 0 → s = 0 → 0 < e →
          batch_final_report d s e = (false, toString e ++ " songs failed to download"))
      ∧ download_complete_error_dialog false "Cancelled" = false := by
  intro d s e
  refine ⟨?_, ?_, by decide⟩
  · unfold batch_final_report
    repeat' split
    all_goals simp_all
  · rintro rfl rfl he
    unfold batch_final_report
    rw [if_neg (by omega), if_pos he]

/-- C7 witness: applying the theorem at three failures and no successes. -/
theorem final_report_correct_witness :
    batch_final_report 0 0 3 = (false, toString 3 ++ " songs failed to download") :=
  (final_report_correct 0 0 3).2.1 rfl rfl (by decide)

/-- C9 counterexample: `start_url_download` dispatches a new download even
while the downloading state is set — with `is_downloading = true` and a valid
track URL it still dispatches the single-song worker rather than returning as
a no-op. -/
theorem start_while_downloading_cx :
    start_url_download true "https://open.spotify.com/track/abc123"
      = StartAction.dispatchSingle "https://open.spotify.com/track/abc123" := by
  decide

/-- C9 (amended): only `download_liked_songs` rejects a start while a batch
is running (immediate no-op return); `start_url_download` never consults the
downloading state — its action is identical whatever that state is — so its
only guard against duplicate dispatch is the presentation layer disabling
the button. -/
theorem start_commands_amended :
    download_liked_songs true true = LikedAction.noopAlreadyDownloading
    ∧ ∀ (d d' : Bool) (u : String), start_url_download d u = start_url_download d' u :=
  ⟨rfl, fun _ _ _ => rfl⟩
